import Mathlib

/-!
# Verification of the interpretive-orchestration state core

Shallow embedding of the Python modules
`qual-shared/scripts/state_manager.py`,
`qual-methodological-rules/scripts/check_phase.py`,
`qual-methodological-rules/scripts/strain_check.py` and
`qual-methodological-rules/scripts/saturation_tracker.py`.

Conventions of the embedding:
* Python JSON values are the inductive `Val`; dictionaries are association
  lists whose lookup takes the first binding (JSON objects have unique keys).
* Python `float` arithmetic is modelled over `ℚ`; `round` is Python's
  banker's rounding (half to even), `pyRoundTo`.
* Python exceptions are `Except PyErr`; an uncaught exception in a code path
  is the corresponding `.error` value.
* `datetime.now().isoformat()` is an arbitrary `String` argument threaded
  into each operation that stamps a time.
-/

inductive Val where
  | vNull : Val
  | vBool : Bool → Val
  | vInt : Int → Val
  | vStr : String → Val
  | vList : List Val → Val
  | vObj : List (String × Val) → Val

open Val

/-- A Python dict of JSON values, as an association list (first binding wins). -/
abbrev Dict := List (String × Val)

/-- Python `v == s` for a string literal `s`. -/
def isStr (v : Val) (s : String) : Bool :=
  match v with
  | vStr t => t = s
  | _ => false

/-- Python exceptions that the embedded code can raise. -/
inductive PyErr where
  | typeError : String → PyErr
  | valueError : String → PyErr
  | attributeError : String → PyErr
  | zeroDivisionError : PyErr
deriving DecidableEq, Repr

/-- `v.get(k)` on a value expected to be a dict: `AttributeError` otherwise. -/
def vGet (v : Val) (k : String) : Except PyErr (Option Val) :=
  match v with
  | vObj l => .ok (l.lookup k)
  | _ => .error (.attributeError k)

/-- Python truthiness of a JSON value. -/
def pyTruthy : Val → Bool
  | vNull => false
  | vBool b => b
  | vInt n => n ≠ 0
  | vStr s => s ≠ ""
  | vList l => ¬ l.isEmpty
  | vObj l => ¬ l.isEmpty

/-- Python `round` to an integer: round half to even. -/
def pyRoundInt (q : ℚ) : ℤ :=
  if Int.fract q = 1/2 then (if ⌊q⌋ % 2 = 0 then ⌊q⌋ else ⌊q⌋ + 1) else round q

/-- Python `round(q, nd)`: banker's rounding at `nd` decimal places. -/
def pyRoundTo (nd : ℕ) (q : ℚ) : ℚ :=
  (pyRoundInt (q * 10 ^ nd) : ℚ) / 10 ^ nd

/-! ## check_phase.py -/

/-- The fixed six-element phase order of `should_relax` (check_phase.py). -/
def phase_order : List String :=
  [ "stage1_foundation",
    "phase1_parallel_streams",
    "phase2_synthesis",
    "phase3_pattern_characterization",
    "cross_wave_analysis",
    "stage3_synthesis" ]

/-- `list.index` returning `none` instead of raising `ValueError`. -/
def idxOf : List String → String → Option Nat
  | [], _ => none
  | x :: xs, s => if x = s then some 0 else (idxOf xs s).map (· + 1)

/-- `should_relax` from check_phase.py: compare positions in `phase_order`,
`ValueError` (either name absent) is caught and yields `False`. -/
def should_relax (relaxes_at current_phase : String) : Bool :=
  match idxOf phase_order current_phase, idxOf phase_order relaxes_at with
  | some ci, some ri => decide (ri ≤ ci)
  | _, _ => false

/-- `get_current_phase` from check_phase.py.  The input is the
`sandwich_status` section (`Optional[Dict]`); the result is whatever the
Python function returns — note the final `return stage`, which hands back an
unrecognized stage value verbatim. -/
def inProgressOrComplete (o : Option Val) : Bool :=
  match o with
  | some v => isStr v "in_progress" || isStr v "complete"
  | none => false

def get_current_phase (ss : Option Dict) : Except PyErr Val :=
  match ss with
  | none => .ok (vStr "stage1_foundation")
  | some d =>
    if d.isEmpty then .ok (vStr "stage1_foundation") else
    let stage := (d.lookup "current_stage").getD (vStr "stage1_foundation")
    if isStr stage "stage1_foundation" then .ok (vStr "stage1_foundation")
    else if isStr stage "stage2_collaboration" then
      let progress := (d.lookup "stage2_progress").getD (vObj [])
      match vGet progress "phase3_pattern_characterization" with
      | .error e => .error e
      | .ok p3 =>
        if inProgressOrComplete p3 then
          .ok (vStr "phase3_pattern_characterization")
        else
          match vGet progress "phase2_synthesis" with
          | .error e => .error e
          | .ok p2 =>
            if inProgressOrComplete p2 then
              .ok (vStr "phase2_synthesis")
            else .ok (vStr "phase1_parallel_streams")
    else if isStr stage "stage3_synthesis" then .ok (vStr "stage3_synthesis")
    else .ok stage

/-! ## strain_check.py -/

structure RuleCount where
  count : ℤ
  last_override : Option String
  phase_when_overridden : String
deriving DecidableEq, Repr

structure OverrideLog where
  rule_id : String
  timestamp : String
  justification : String
  outcome : String
deriving DecidableEq, Repr

structure StrainReview where
  rule_id : String
  triggered_at : String
  override_count : ℤ
  resolution : String
  notes : String
deriving DecidableEq, Repr

/-- The `strain_tracking` dict created by `record_override`'s initializer. -/
structure StrainTracking where
  override_counts : List (String × RuleCount)
  strain_threshold : Option ℤ
  strained_rules : List String
  strain_reviews : List StrainReview
deriving DecidableEq, Repr

structure ResearchDesign where
  strain_tracking : Option StrainTracking
  rule_overrides : Option (List OverrideLog)
deriving DecidableEq, Repr

structure StrainConfig where
  research_design : Option ResearchDesign
deriving DecidableEq, Repr

structure OverrideResult where
  rule_id : String
  override_count : ℤ
  threshold : ℤ
  is_strained : Bool
  phase : String
  first_time_strained : Bool
deriving DecidableEq, Repr

def initStrainTracking : StrainTracking :=
  { override_counts := [], strain_threshold := some 3,
    strained_rules := [], strain_reviews := [] }

/-- In-place update of a Python dict binding: replace in position, or append. -/
def setEntry {α : Type} : List (String × α) → String → α → List (String × α)
  | [], k, v => [(k, v)]
  | (k', v') :: rest, k, v =>
      if k' = k then (k, v) :: rest else (k', v') :: setEntry rest k v

/-- `record_override` from strain_check.py. -/
def record_override (config : StrainConfig) (rule_id : String)
    (justification : Option String) (current_phase now : String) :
    StrainConfig × OverrideResult :=
  let rd := config.research_design.getD ⟨none, none⟩
  let tracking := rd.strain_tracking.getD initStrainTracking
  let rc0 := (tracking.override_counts.lookup rule_id).getD
      { count := 0, last_override := none, phase_when_overridden := current_phase }
  let rc1 := if rc0.phase_when_overridden ≠ current_phase then
      { rc0 with count := 0, phase_when_overridden := current_phase } else rc0
  let rc2 := { rc1 with count := rc1.count + 1, last_override := some now }
  let counts' := setEntry tracking.override_counts rule_id rc2
  let overrides' := rd.rule_overrides.getD [] ++
      [{ rule_id := rule_id, timestamp := now,
         justification := justification.getD "", outcome := "pending" }]
  let threshold := tracking.strain_threshold.getD 3
  let is_strained := decide (threshold ≤ rc2.count)
  let strained' := if is_strained ∧ rule_id ∉ tracking.strained_rules then
      tracking.strained_rules ++ [rule_id] else tracking.strained_rules
  let tracking' := { tracking with override_counts := counts', strained_rules := strained' }
  (⟨some { rd with strain_tracking := some tracking', rule_overrides := some overrides' }⟩,
   { rule_id := rule_id, override_count := rc2.count, threshold := threshold,
     is_strained := is_strained, phase := current_phase,
     first_time_strained := is_strained && decide (rc2.count = threshold) })

/-- `record_strain_resolution` from strain_check.py; the `Bool` is the
`success` flag of the returned dict. -/
def record_strain_resolution (config : StrainConfig) (rule_id resolution : String)
    (notes : Option String) (now : String) : StrainConfig × Bool :=
  match config.research_design with
  | none => (config, false)
  | some rd =>
    match rd.strain_tracking with
    | none => (config, false)
    | some tracking =>
      let reviews' := tracking.strain_reviews ++
        [{ rule_id := rule_id, triggered_at := now,
           override_count := ((tracking.override_counts.lookup rule_id).map (·.count)).getD 0,
           resolution := resolution, notes := notes.getD "" }]
      let counts' := if resolution = "phase_transition" then
          (match tracking.override_counts.lookup rule_id with
           | some rc => setEntry tracking.override_counts rule_id { rc with count := 0 }
           | none => tracking.override_counts)
        else tracking.override_counts
      let strained' := if rule_id ∈ tracking.strained_rules then
          tracking.strained_rules.erase rule_id else tracking.strained_rules
      let tracking' : StrainTracking :=
        { override_counts := counts', strain_threshold := tracking.strain_threshold,
          strained_rules := strained', strain_reviews := reviews' }
      (⟨some { rd with strain_tracking := some tracking' }⟩, true)

/-- The override counter currently stored for a rule. -/
def overrideCount (cfg : StrainConfig) (rid : String) : Option RuleCount :=
  match cfg.research_design with
  | none => none
  | some rd =>
    match rd.strain_tracking with
    | none => none
    | some tr => tr.override_counts.lookup rid

/-- The `strained_rules` list currently stored. -/
def strainedRules (cfg : StrainConfig) : List String :=
  match cfg.research_design with
  | none => []
  | some rd =>
    match rd.strain_tracking with
    | none => []
    | some tr => tr.strained_rules

/-- Sequences of overrides of one rule in one phase starting from an empty
project config (used for the strain-threshold claim). -/
def overrideSeq (rid p now : String) : Nat → StrainConfig × Option OverrideResult
  | 0 => (⟨none⟩, none)
  | n + 1 =>
    let prev := overrideSeq rid p now n
    let step := record_override prev.1 rid none p now
    (step.1, some step.2)

/-- Closed form of the config reached after `n ≥ 1` overrides of `rid` in
phase `p` starting from the empty config. -/
def seqCfg (rid p now : String) (n : Nat) : StrainConfig :=
  ⟨some
    { strain_tracking := some
        { override_counts := [(rid, { count := (n : Int), last_override := some now,
                                      phase_when_overridden := p })],
          strain_threshold := some 3,
          strained_rules := if 3 ≤ n then [rid] else [],
          strain_reviews := [] },
      rule_overrides := some (List.replicate n
        { rule_id := rid, timestamp := now, justification := "", outcome := "pending" }) }⟩

/-! ## saturation_tracker.py

Only the substructures that `record_document` and `update_coverage` read or
write are modelled (`code_generation`, `code_coverage`, `thresholds`); the
`refinement`, `redundancy` and `saturation_signals` substructures are
untouched by these two operations. -/

structure DocEntry where
  document_id : String
  document_name : String
  new_codes_created : Int
  timestamp : String
deriving DecidableEq, Repr

structure CodeGeneration where
  total_codes : Int
  codes_by_document : List DocEntry
  generation_rate : Rat
  stabilized_at_document : Option String
deriving DecidableEq, Repr

structure CoverageEntry where
  document_count : Int
  case_count : Int
  coverage_percent : Rat
deriving DecidableEq, Repr

structure CodeCoverage where
  coverage_by_code : List (String × CoverageEntry)
  rare_codes : List String
  universal_codes : List String
deriving DecidableEq, Repr

/-- The `thresholds` dict, restricted to the key these operations read
(`thresholds.get('code_generation_stable', 0.5)`). -/
structure SatThresholds where
  code_generation_stable : Option Rat
deriving DecidableEq, Repr

structure SaturationTracking where
  code_generation : CodeGeneration
  code_coverage : CodeCoverage
  thresholds : SatThresholds
deriving DecidableEq, Repr

/-- `init_saturation_tracking`'s initial values for the modelled fields. -/
def initSaturationTracking : SaturationTracking :=
  { code_generation := { total_codes := 0, codes_by_document := [],
                         generation_rate := 0, stabilized_at_document := none },
    code_coverage := { coverage_by_code := [], rare_codes := [], universal_codes := [] },
    thresholds := { code_generation_stable := some (1/2) } }

/-- Python `l[-n:]`. -/
def lastN {α : Type} (n : Nat) (l : List α) : List α := l.drop (l.length - n)

/-- Python truthiness of an optional string (`not x` on `None` or `""`). -/
def optStrTruthy : Option String → Bool
  | none => false
  | some s => s ≠ ""

structure RecordDocResult where
  document : String
  new_codes : Int
  total_codes : Int
  generation_rate : Rat
  stabilized : Bool
  stabilized_at : Option String
deriving DecidableEq, Repr

/-- `record_document` from saturation_tracker.py.  The rolling average is
taken over the last five recorded documents (the one being recorded
included); stabilization fires when the raw average drops below the
threshold with at least three documents in the window and the stored
`stabilized_at_document` is falsy (`None` **or** the empty string). -/
def record_document (tr : SaturationTracking) (doc_id doc_name : String)
    (new_codes : Int) (now : String) : SaturationTracking × RecordDocResult :=
  let cg := tr.code_generation
  let entries := cg.codes_by_document ++
    [{ document_id := doc_id, document_name := doc_name,
       new_codes_created := new_codes, timestamp := now }]
  let total := cg.total_codes + new_codes
  let recent := lastN 5 entries
  let avg : Rat := (recent.map (fun d => (d.new_codes_created : Rat))).sum / recent.length
  let rate := pyRoundTo 2 avg
  let threshold := tr.thresholds.code_generation_stable.getD (1/2)
  let stab := if ¬ optStrTruthy cg.stabilized_at_document = true ∧ avg < threshold ∧
      3 ≤ recent.length then some doc_id else cg.stabilized_at_document
  let cg' : CodeGeneration :=
    { total_codes := total, codes_by_document := entries,
      generation_rate := rate, stabilized_at_document := stab }
  ({ tr with code_generation := cg' },
   { document := doc_id, new_codes := new_codes, total_codes := total,
     generation_rate := rate, stabilized := stab.isSome, stabilized_at := stab })

/-- Fold `record_document` over a list of `(doc_id, new_codes)` pairs
(document name defaulting to the id, as the CLI does). -/
def recordDocs (tr : SaturationTracking) (now : String) :
    List (String × Int) → SaturationTracking
  | [] => tr
  | (id, k) :: rest => recordDocs (record_document tr id id k now).1 now rest

structure UpdateCoverageResult where
  total_codes_tracked : Nat
  rare_count : Nat
  universal_count : Nat
deriving DecidableEq, Repr

/-- `update_coverage` from saturation_tracker.py.  `documents_coded` is the
config's `coding_progress.documents_coded` (`.get` default 1); each datum is
`(code_id, document_count, case_count?)`.  Division by a zero document total
raises `ZeroDivisionError` as soon as the first datum is processed.  The
classification pass is `< 10 → rare`, `elif > 80 → universal` (strict
comparisons, and the two ranges are disjoint). -/
def update_coverage (tr : SaturationTracking) (documents_coded : Option Int)
    (coverage_data : List (String × Int × Option Int)) :
    Except PyErr (SaturationTracking × UpdateCoverageResult) :=
  let total := documents_coded.getD 1
  if total = 0 ∧ ¬ coverage_data.isEmpty then .error .zeroDivisionError
  else
    let covs := coverage_data.foldl (fun acc e =>
      setEntry acc e.1
        { document_count := e.2.1, case_count := (e.2.2).getD 0,
          coverage_percent := pyRoundTo 1 ((e.2.1 : Rat) / (total : Rat) * 100) })
      tr.code_coverage.coverage_by_code
    let rare := (covs.filter (fun p => decide (p.2.coverage_percent < 10))).map (fun p => p.1)
    let univ := (covs.filter (fun p => decide (80 < p.2.coverage_percent))).map (fun p => p.1)
    .ok ({ tr with code_coverage :=
            { coverage_by_code := covs, rare_codes := rare, universal_codes := univ } },
         { total_codes_tracked := covs.length, rare_count := rare.length,
           universal_count := univ.length })

/-! ## state_manager.py

`ProjectState` is Python's dataclass: 16 fields with defaults.  Since
`cls(**data)` performs no type checking, each field holds an arbitrary JSON
value; operations that need a number (`version += 1`,
`documents_manually_coded < 10`) raise `TypeError` on a non-numeric value,
exactly as Python would. -/

structure ProjectState where
  version : Val
  current_stage : Val
  documents_manually_coded : Val
  stage1_complete : Val
  ontology : Val
  epistemology : Val
  tradition : Val
  total_documents : Val
  documents_coded : Val
  memos_written : Val
  codes_created : Val
  created_at : Val
  last_updated : Val
  reflexivity_entries : Val
  project_name : Val
  research_question : Val

/-- The dataclass field names, in declaration order. -/
def projectStateFields : List String :=
  [ "version", "current_stage", "documents_manually_coded", "stage1_complete",
    "ontology", "epistemology", "tradition", "total_documents",
    "documents_coded", "memos_written", "codes_created", "created_at",
    "last_updated", "reflexivity_entries", "project_name", "research_question" ]

/-- The dataclass defaults. -/
def defaultProjectState : ProjectState :=
  { version := vInt 1, current_stage := vStr "stage1",
    documents_manually_coded := vInt 0, stage1_complete := vBool false,
    ontology := vStr "interpretivist",
    epistemology := vStr "systematic_interpretation",
    tradition := vStr "gioia_corley", total_documents := vInt 0,
    documents_coded := vInt 0, memos_written := vInt 0, codes_created := vInt 0,
    created_at := vNull, last_updated := vNull, reflexivity_entries := vList [],
    project_name := vStr "", research_question := vStr "" }

/-- `ProjectState.to_dict` (`dataclasses.asdict`): all fields, declaration
order. -/
def to_dict (s : ProjectState) : Dict :=
  [ ("version", s.version), ("current_stage", s.current_stage),
    ("documents_manually_coded", s.documents_manually_coded),
    ("stage1_complete", s.stage1_complete), ("ontology", s.ontology),
    ("epistemology", s.epistemology), ("tradition", s.tradition),
    ("total_documents", s.total_documents), ("documents_coded", s.documents_coded),
    ("memos_written", s.memos_written), ("codes_created", s.codes_created),
    ("created_at", s.created_at), ("last_updated", s.last_updated),
    ("reflexivity_entries", s.reflexivity_entries),
    ("project_name", s.project_name), ("research_question", s.research_question) ]

/-- `ProjectState.from_dict`, i.e. `cls(**data)`: any key outside the
dataclass's field list raises
`TypeError: __init__() got an unexpected keyword argument`; otherwise each
present key supplies the field's value (no type checking) and absent keys
take the defaults. -/
def from_dict (d : Dict) : Except PyErr ProjectState :=
  match d.find? (fun p => !(projectStateFields.contains p.1)) with
  | some p => .error (.typeError p.1)
  | none => .ok
    { version := (d.lookup "version").getD (vInt 1),
      current_stage := (d.lookup "current_stage").getD (vStr "stage1"),
      documents_manually_coded := (d.lookup "documents_manually_coded").getD (vInt 0),
      stage1_complete := (d.lookup "stage1_complete").getD (vBool false),
      ontology := (d.lookup "ontology").getD (vStr "interpretivist"),
      epistemology := (d.lookup "epistemology").getD (vStr "systematic_interpretation"),
      tradition := (d.lookup "tradition").getD (vStr "gioia_corley"),
      total_documents := (d.lookup "total_documents").getD (vInt 0),
      documents_coded := (d.lookup "documents_coded").getD (vInt 0),
      memos_written := (d.lookup "memos_written").getD (vInt 0),
      codes_created := (d.lookup "codes_created").getD (vInt 0),
      created_at := (d.lookup "created_at").getD vNull,
      last_updated := (d.lookup "last_updated").getD vNull,
      reflexivity_entries := (d.lookup "reflexivity_entries").getD (vList []),
      project_name := (d.lookup "project_name").getD (vStr ""),
      research_question := (d.lookup "research_question").getD (vStr "") }

/-- Python `x += 1` on a JSON value (`bool` is an `int` in Python). -/
def pyIntAdd1 : Val → Except PyErr Val
  | vInt n => .ok (vInt (n + 1))
  | vBool b => .ok (vInt ((if b then 1 else 0) + 1))
  | _ => .error (.typeError "unsupported operand type for +=")

/-- Python `x < 10` on a JSON value. -/
def pyLt10 : Val → Except PyErr Bool
  | vInt n => .ok (decide (n < 10))
  | vBool b => .ok (decide ((if b then (1 : Int) else 0) < 10))
  | _ => .error (.typeError "< not supported between instances")

/-- `StateManager.save`: bump `version`, stamp `last_updated`
(`_save_internal` re-stamps with the same clock reading), write `to_dict`. -/
def save (s : ProjectState) (now : String) : Except PyErr ProjectState :=
  match pyIntAdd1 s.version with
  | .error e => .error e
  | .ok v => .ok { s with version := v, last_updated := vStr now }

/-- `save(load())` followed by `load()` at the document level: parse the
stored document, save it, and read back what was written. -/
def load_save_roundtrip (d : Dict) (now : String) : Except PyErr Dict :=
  match from_dict d with
  | .error e => .error e
  | .ok s =>
    match save s now with
    | .error e => .error e
    | .ok s2 => .ok (to_dict s2)

/-- The `valid_transitions` adjacency table, looked up at the state's
`current_stage` (`.get(current, [])`). -/
def transitionsFrom (v : Val) : List String :=
  if isStr v "stage1" then ["stage2"]
  else if isStr v "stage2" then ["stage3"]
  else []

/-- `StateManager.transition_stage`: reject a move that is not in the
adjacency table (`ValueError "Invalid transition..."`); for `stage1→stage2`
with `stage1_complete` falsy, reject when fewer than 10 documents are
manually coded (`ValueError "Cannot transition to stage2..."`); otherwise
mark `stage1_complete`, set the new stage and save. -/
def transition_stage (s : ProjectState) (new_stage : String) (now : String) :
    Except PyErr ProjectState :=
  if ¬ (transitionsFrom s.current_stage).contains new_stage then
    .error (.valueError "Invalid transition")
  else
    let step2 : Except PyErr ProjectState :=
      if new_stage = "stage2" then
        (if pyTruthy s.stage1_complete then .ok { s with stage1_complete := vBool true }
         else
           match pyLt10 s.documents_manually_coded with
           | .error e => .error e
           | .ok lt =>
             if lt then .error (.valueError "Cannot transition to stage2")
             else .ok { s with stage1_complete := vBool true })
      else .ok s
    match step2 with
    | .error e => .error e
    | .ok s1 => save { s1 with current_stage := vStr new_stage } now

/-- A concrete strain-tracking dict with a rule counter from phase "A"
(witness input). -/
def c4rc : RuleCount :=
  { count := 2, last_override := some "t0", phase_when_overridden := "A" }

def c4tr : StrainTracking :=
  { override_counts := [("r", c4rc)], strain_threshold := some 3,
    strained_rules := [], strain_reviews := [] }

/-- A concrete config holding `c4tr` (witness input). -/
def c4cfg : StrainConfig := ⟨some ⟨some c4tr, some []⟩⟩

/-- A concrete strain-tracking dict with a strained rule (witness input). -/
def c10tr : StrainTracking :=
  { override_counts := [("r", c4rc)], strain_threshold := some 3,
    strained_rules := ["r"], strain_reviews := [] }

/-- A concrete config holding `c10tr` (witness input). -/
def c10cfg : StrainConfig := ⟨some ⟨some c10tr, none⟩⟩

/-- A concrete tracking state already stabilized at document "X"
(witness input). -/
def c7tr : SaturationTracking :=
  { initSaturationTracking with code_generation :=
      { initSaturationTracking.code_generation with stabilized_at_document := some "X" } }

/-- The coverage entry produced for a code in 16 of 20 documents. -/
def c9entry : CoverageEntry :=
  { document_count := 16, case_count := 0, coverage_percent := 80 }

/-- The tracking state after `update_coverage` on 16-of-20 data. -/
def c9tr : SaturationTracking :=
  { initSaturationTracking with code_coverage :=
      { coverage_by_code := [("theme", c9entry)], rare_codes := [],
        universal_codes := [] } }

/-- The result record for the 16-of-20 coverage update. -/
def c9res : UpdateCoverageResult :=
  { total_codes_tracked := 1, rare_count := 0, universal_count := 0 }

/-- A stage-1 state already flagged `stage1_complete` but with zero manually
coded documents (counterexample input for the transition precondition). -/
def c6state : ProjectState :=
  { defaultProjectState with stage1_complete := vBool true }

/-- The default document after one save at time "T". -/
def c8out : ProjectState :=
  { defaultProjectState with version := vInt 2, last_updated := vStr "T" }

/-! ## Supporting lemmas -/

lemma idxOf_isSome_iff_mem (l : List String) (s : String) :
    (idxOf l s).isSome ↔ s ∈ l := by
  induction l with
  | nil => simp [idxOf]
  | cons x xs ih =>
    by_cases hx : x = s
    · simp [idxOf, hx]
    · simp [idxOf, hx, Option.isSome_map]
      constructor
      · intro h; exact .inr (ih.mp h)
      · rintro (h | h)
        · exact absurd h.symm hx
        · exact ih.mpr h

lemma idxOf_eq_none_iff (l : List String) (s : String) :
    idxOf l s = none ↔ s ∉ l := by
  rw [← idxOf_isSome_iff_mem, Option.isSome_iff_ne_none]
  tauto

lemma lookup_setEntry_self {α : Type} (l : List (String × α)) (k : String) (v : α) :
    (setEntry l k v).lookup k = some v := by
  induction l with
  | nil => simp [setEntry, List.lookup]
  | cons hd tl ih =>
    obtain ⟨k', v'⟩ := hd
    by_cases h : k' = k
    · simp [setEntry, h, List.lookup]
    · simp only [setEntry, if_neg h, List.lookup]
      have : (k == k') = false := by
        simp [beq_iff_eq]; exact fun hh => h hh.symm
      simp [this, ih]

lemma lookup_setEntry_ne {α : Type} (l : List (String × α)) (k k' : String) (v : α)
    (h : k' ≠ k) : (setEntry l k v).lookup k' = l.lookup k' := by
  have hk : (k' == k) = false := beq_eq_false_iff_ne.mpr h
  induction l with
  | nil => simp [setEntry, List.lookup, hk]
  | cons hd tl ih =>
    obtain ⟨k0, v0⟩ := hd
    by_cases h0 : k0 = k
    · subst h0
      simp [setEntry, List.lookup, hk]
    · simp only [setEntry, if_neg h0, List.lookup]
      cases hkk : (k' == k0) <;> simp [ih]

/-! ## Claim theorems: phase machine -/

/-- C3.  `should_relax(relaxes_at, current_phase)` is `True` iff both names
occur in the fixed six-element phase order and the index of `current_phase`
is ≥ the index of `relaxes_at`; if either name is absent it returns `False`
(it never raises: the embedding is a total function). -/
theorem should_relax_iff_ordered (r c : String) :
    (should_relax r c = true ↔
      ∃ i j, idxOf phase_order r = some i ∧ idxOf phase_order c = some j ∧ i ≤ j) ∧
    ((r ∉ phase_order ∨ c ∉ phase_order) → should_relax r c = false) := by
  constructor
  · rcases hc : idxOf phase_order c with _ | cj <;>
      rcases hr : idxOf phase_order r with _ | ri <;>
      simp [should_relax, hc, hr]
  · intro h
    rcases h with h | h
    · rw [← idxOf_eq_none_iff] at h
      cases hc : idxOf phase_order c <;> simp [should_relax, h, hc]
    · rw [← idxOf_eq_none_iff] at h
      cases hr : idxOf phase_order r <;> simp [should_relax, h, hr]

/-- Witness for C3 at concrete phases: a rule relaxing at
`phase2_synthesis` is relaxed at `cross_wave_analysis`. -/
theorem should_relax_iff_ordered_witness :
    (should_relax "phase2_synthesis" "cross_wave_analysis" = true ↔
      ∃ i j, idxOf phase_order "phase2_synthesis" = some i ∧
        idxOf phase_order "cross_wave_analysis" = some j ∧ i ≤ j) ∧
    (("phase2_synthesis" ∉ phase_order ∨ "cross_wave_analysis" ∉ phase_order) →
      should_relax "phase2_synthesis" "cross_wave_analysis" = false) :=
  should_relax_iff_ordered "phase2_synthesis" "cross_wave_analysis"

/-- C2 (counterexample).  `get_current_phase` does not default an
unrecognized `current_stage` to `stage1_foundation`: the final
`return stage` hands the unknown value back verbatim, so on
`{"current_stage": "bogus"}` it returns `"bogus"`, which is not one of the
six phase identifiers. -/
theorem get_current_phase_unknown_stage_passthrough :
    get_current_phase (some [("current_stage", vStr "bogus")]) = .ok (vStr "bogus") ∧
    "bogus" ∉ phase_order := by
  constructor
  · rfl
  · decide

/-- C2 (amended).  `get_current_phase` returns `stage1_foundation` when the
input is `None`/empty or has no `current_stage` key; a recognized
`stage1_foundation`/`stage3_synthesis` stage maps to itself; a recognized
`stage2_collaboration` stage maps to one of the six phase identifiers
(or raises `AttributeError` when `stage2_progress` is not a dict); an
unrecognized stage value is returned verbatim, not defaulted. -/
theorem get_current_phase_amended :
    (get_current_phase none = .ok (vStr "stage1_foundation")) ∧
    (get_current_phase (some []) = .ok (vStr "stage1_foundation")) ∧
    (∀ d : Dict, d.lookup "current_stage" = none →
      get_current_phase (some d) = .ok (vStr "stage1_foundation")) ∧
    (∀ (d : Dict) (v : Val), d.lookup "current_stage" = some v →
      isStr v "stage1_foundation" = false → isStr v "stage2_collaboration" = false →
      isStr v "stage3_synthesis" = false → get_current_phase (some d) = .ok v) ∧
    (∀ (d : Dict) (v : Val), d.lookup "current_stage" = some v →
      (isStr v "stage1_foundation" || isStr v "stage2_collaboration" ||
        isStr v "stage3_synthesis") = true →
      (∃ r, get_current_phase (some d) = .ok (vStr r) ∧ r ∈ phase_order) ∨
      (∃ k, get_current_phase (some d) = .error (.attributeError k))) := by
  refine ⟨rfl, rfl, ?_, ?_, ?_⟩
  · intro d h
    unfold get_current_phase
    by_cases he : d.isEmpty
    · simp [he]
    · simp [he, h, isStr]
  · intro d v h h1 h2 h3
    have he : d.isEmpty = false := by
      cases d with
      | nil => simp [List.lookup] at h
      | cons a l => simp [List.isEmpty]
    unfold get_current_phase
    simp [he, h, h1, h2, h3]
  · intro d v h hrec
    have he : d.isEmpty = false := by
      cases d with
      | nil => simp [List.lookup] at h
      | cons a l => simp [List.isEmpty]
    by_cases h1 : isStr v "stage1_foundation" = true
    · left
      exact ⟨"stage1_foundation", by unfold get_current_phase; simp [he, h, h1], by decide⟩
    · simp only [Bool.not_eq_true] at h1
      by_cases h2 : isStr v "stage2_collaboration" = true
      · cases hp : (d.lookup "stage2_progress").getD (vObj []) with
        | vObj l =>
          by_cases q3 : inProgressOrComplete (l.lookup "phase3_pattern_characterization") = true
          · left
            refine ⟨"phase3_pattern_characterization", ?_, by decide⟩
            unfold get_current_phase
            simp [he, h, h1, h2, hp, vGet, q3]
          · by_cases q2 : inProgressOrComplete (l.lookup "phase2_synthesis") = true
            · left
              refine ⟨"phase2_synthesis", ?_, by decide⟩
              unfold get_current_phase
              simp [he, h, h1, h2, hp, vGet, q3, q2]
            · left
              refine ⟨"phase1_parallel_streams", ?_, by decide⟩
              unfold get_current_phase
              simp [he, h, h1, h2, hp, vGet, q3, q2]
        | vNull =>
          right
          exact ⟨"phase3_pattern_characterization",
            by unfold get_current_phase; simp [he, h, h1, h2, hp, vGet]⟩
        | vBool b =>
          right
          exact ⟨"phase3_pattern_characterization",
            by unfold get_current_phase; simp [he, h, h1, h2, hp, vGet]⟩
        | vInt n =>
          right
          exact ⟨"phase3_pattern_characterization",
            by unfold get_current_phase; simp [he, h, h1, h2, hp, vGet]⟩
        | vStr s =>
          right
          exact ⟨"phase3_pattern_characterization",
            by unfold get_current_phase; simp [he, h, h1, h2, hp, vGet]⟩
        | vList l =>
          right
          exact ⟨"phase3_pattern_characterization",
            by unfold get_current_phase; simp [he, h, h1, h2, hp, vGet]⟩
      · simp only [Bool.not_eq_true] at h2
        have h3 : isStr v "stage3_synthesis" = true := by
          rcases Bool.or_eq_true_iff.mp hrec with hh | h3
          · rcases Bool.or_eq_true_iff.mp hh with ha | hb
            · exact absurd ha (by simp [h1])
            · exact absurd hb (by simp [h2])
          · exact h3
        left
        exact ⟨"stage3_synthesis",
          by unfold get_current_phase; simp [he, h, h1, h2, h3], by decide⟩

/-- Witness for C2's amended theorem: a dict without a `current_stage` key
defaults to `stage1_foundation`. -/
theorem get_current_phase_amended_witness :
    get_current_phase (some [("foo", vNull)]) = .ok (vStr "stage1_foundation") :=
  get_current_phase_amended.2.2.1 [("foo", vNull)] rfl

/-! ## Claim theorems: strain detector -/

/-- C4.  `record_override` with a `current_phase` differing from the stored
`phase_when_overridden` resets the count to 0 and updates the stored phase
before incrementing, so the stored counter afterwards is exactly
`{count := 1, phase := current_phase}`; in particular two overrides in phase
"A" followed by one in phase "B" leave the count at 1 and the rule not
strained. -/
theorem record_override_phase_reset
    (cfg : StrainConfig) (rid : String) (j : Option String) (p now : String)
    (rd : ResearchDesign) (tr : StrainTracking) (rc : RuleCount)
    (h1 : cfg.research_design = some rd) (h2 : rd.strain_tracking = some tr)
    (h3 : tr.override_counts.lookup rid = some rc)
    (h4 : rc.phase_when_overridden ≠ p) :
    (overrideCount (record_override cfg rid j p now).1 rid =
      some { count := 1, last_override := some now, phase_when_overridden := p } ∧
     (record_override cfg rid j p now).2.override_count = 1) ∧
    ((record_override (record_override (record_override ⟨none⟩ "r" none "A" "t1").1
        "r" none "A" "t2").1 "r" none "B" "t3").2.override_count = 1 ∧
     (record_override (record_override (record_override ⟨none⟩ "r" none "A" "t1").1
        "r" none "A" "t2").1 "r" none "B" "t3").2.is_strained = false ∧
     strainedRules (record_override (record_override (record_override ⟨none⟩ "r" none "A" "t1").1
        "r" none "A" "t2").1 "r" none "B" "t3").1 = []) := by
  constructor
  · constructor
    · simp [record_override, overrideCount, h1, h2, h3, h4, lookup_setEntry_self]
    · simp [record_override, h1, h2, h3, h4]
  · refine ⟨by decide, by decide, by decide⟩

/-- Witness for C4: the reset theorem applied to a concrete counter with two
phase-"A" overrides, overridden once in phase "B". -/
theorem record_override_phase_reset_witness :
    (overrideCount (record_override c4cfg "r" none "B" "t3").1 "r" =
      some { count := 1, last_override := some "t3", phase_when_overridden := "B" } ∧
     (record_override c4cfg "r" none "B" "t3").2.override_count = 1) ∧
    ((record_override (record_override (record_override ⟨none⟩ "r" none "A" "t1").1
        "r" none "A" "t2").1 "r" none "B" "t3").2.override_count = 1 ∧
     (record_override (record_override (record_override ⟨none⟩ "r" none "A" "t1").1
        "r" none "A" "t2").1 "r" none "B" "t3").2.is_strained = false ∧
     strainedRules (record_override (record_override (record_override ⟨none⟩ "r" none "A" "t1").1
        "r" none "A" "t2").1 "r" none "B" "t3").1 = []) :=
  record_override_phase_reset c4cfg "r" none "B" "t3" ⟨some c4tr, some []⟩ c4tr
    c4rc rfl rfl (by rfl) (by decide)

lemma replicate_append_one {α : Type} (n : Nat) (a : α) :
    List.replicate n a ++ [a] = List.replicate (n + 1) a := by
  induction n with
  | zero => rfl
  | succ k ih => simp [List.replicate_succ, ih]

/-- Closed form for `n+1` successive overrides of one rule in one phase from
the empty config. -/
lemma overrideSeq_closed (rid p now : String) (n : Nat) :
    overrideSeq rid p now (n + 1) =
      (seqCfg rid p now (n + 1),
       some { rule_id := rid, override_count := (n : Int) + 1, threshold := 3,
              is_strained := decide ((3 : Int) ≤ (n : Int) + 1), phase := p,
              first_time_strained :=
                decide ((3 : Int) ≤ (n : Int) + 1) && decide ((n : Int) + 1 = 3) }) := by
  induction n with
  | zero =>
    simp [overrideSeq, record_override, initStrainTracking, seqCfg, setEntry,
      List.lookup]
  | succ k ih =>
    unfold overrideSeq
    rw [ih]
    by_cases hA : 3 ≤ k + 1
    · have hA1 : 2 ≤ k := by omega
      have hA2 : 3 ≤ k + 1 + 1 := by omega
      have hA3 : 1 ≤ k := by omega
      have hB : (3 : Int) ≤ (k : Int) + 1 := by omega
      have hB2 : (3 : Int) ≤ (k : Int) + 1 + 1 := by omega
      simp [record_override, seqCfg, setEntry, List.lookup, replicate_append_one,
        hA, hA1, hA2, hA3, hB, hB2]
    · have hA1 : ¬ 2 ≤ k := by omega
      have hB : ¬ (3 : Int) ≤ (k : Int) + 1 := by omega
      by_cases hC : 3 ≤ k + 1 + 1
      · have hC1 : 1 ≤ k := by omega
        have hD : (3 : Int) ≤ (k : Int) + 1 + 1 := by omega
        simp [record_override, seqCfg, setEntry, List.lookup, replicate_append_one,
          hA, hA1, hB, hC, hC1, hD]
      · have hC1 : ¬ 1 ≤ k := by omega
        have hD : ¬ (3 : Int) ≤ (k : Int) + 1 + 1 := by omega
        simp [record_override, seqCfg, setEntry, List.lookup, replicate_append_one,
          hA, hA1, hB, hC, hC1, hD]

/-- C5.  With the default threshold 3, a fresh rule overridden `k ≥ 1` times
within a single phase returns `first_time_strained = true` exactly on the
3rd call (so the 4th and later calls return `false`), and `is_strained`
from the 3rd call on. -/
theorem strain_first_time_at_third (rid p now : String) (k : Nat) (hk : 1 ≤ k) :
    ∃ r : OverrideResult, (overrideSeq rid p now k).2 = some r ∧
      r.override_count = (k : Int) ∧ r.threshold = 3 ∧
      (r.first_time_strained = true ↔ k = 3) ∧
      (r.is_strained = true ↔ 3 ≤ k) := by
  obtain ⟨n, rfl⟩ : ∃ n, k = n + 1 := ⟨k - 1, by omega⟩
  rw [overrideSeq_closed]
  refine ⟨_, rfl, by push_cast; ring, rfl, ?_, ?_⟩
  · simp only [Bool.and_eq_true, decide_eq_true_eq]
    omega
  · simp only [decide_eq_true_eq]
    omega

/-- Witness for C5 at the third call. -/
theorem strain_first_time_at_third_witness :
    ∃ r : OverrideResult,
      (overrideSeq "stream-separation" "phase1_parallel_streams" "t" 3).2 = some r ∧
      r.override_count = ((3 : Nat) : Int) ∧ r.threshold = 3 ∧
      (r.first_time_strained = true ↔ (3 : Nat) = 3) ∧
      (r.is_strained = true ↔ 3 ≤ (3 : Nat)) :=
  strain_first_time_at_third "stream-separation" "phase1_parallel_streams" "t" 3
    (by decide)

/-- C10.  For every config with strain tracking and every resolution type,
`record_strain_resolution` succeeds, appends exactly one review record, and
removes the rule from `strained_rules` (for any resolution, not only
`phase_transition`), while the rule's override count is reset to 0 only
when the resolution is `phase_transition`. -/
theorem strain_resolution_behavior
    (cfg : StrainConfig) (rid res : String) (notes : Option String) (now : String)
    (rd : ResearchDesign) (tr : StrainTracking)
    (h1 : cfg.research_design = some rd) (h2 : rd.strain_tracking = some tr) :
    (record_strain_resolution cfg rid res notes now).2 = true ∧
    ∃ tr', ((record_strain_resolution cfg rid res notes now).1).research_design =
        some { rd with strain_tracking := some tr' } ∧
      tr'.strain_reviews = tr.strain_reviews ++
        [{ rule_id := rid, triggered_at := now,
           override_count := ((tr.override_counts.lookup rid).map (·.count)).getD 0,
           resolution := res, notes := notes.getD "" }] ∧
      tr'.strained_rules = tr.strained_rules.erase rid ∧
      (res ≠ "phase_transition" → tr'.override_counts = tr.override_counts) ∧
      (res = "phase_transition" → ∀ rc, tr.override_counts.lookup rid = some rc →
        tr'.override_counts.lookup rid = some { rc with count := 0 }) := by
  unfold record_strain_resolution
  simp only [h1, h2]
  refine ⟨trivial, _, rfl, rfl, ?_, ?_, ?_⟩
  · by_cases hm : rid ∈ tr.strained_rules
    · simp [hm]
    · simp [hm, List.erase_of_not_mem hm]
  · intro h
    simp [h]
  · intro h rc hrc
    simp [h, hrc, lookup_setEntry_self]

/-- Witness for C10: an `adjust_rule` resolution on a concrete strained
config clears the strained flag without resetting the count. -/
theorem strain_resolution_behavior_witness :
    (record_strain_resolution c10cfg "r" "adjust_rule" none "t9").2 = true ∧
    ∃ tr', ((record_strain_resolution c10cfg "r" "adjust_rule" none "t9").1).research_design =
        some { strain_tracking := some tr', rule_overrides := none } ∧
      tr'.strain_reviews = c10tr.strain_reviews ++
        [{ rule_id := "r", triggered_at := "t9",
           override_count := ((c10tr.override_counts.lookup "r").map (·.count)).getD 0,
           resolution := "adjust_rule", notes := (none : Option String).getD "" }] ∧
      tr'.strained_rules = c10tr.strained_rules.erase "r" ∧
      ("adjust_rule" ≠ "phase_transition" → tr'.override_counts = c10tr.override_counts) ∧
      ("adjust_rule" = "phase_transition" → ∀ rc, c10tr.override_counts.lookup "r" = some rc →
        tr'.override_counts.lookup "r" = some { rc with count := 0 }) :=
  strain_resolution_behavior c10cfg "r" "adjust_rule" none "t9" ⟨some c10tr, none⟩ c10tr
    rfl rfl
/-! ## Claim theorems: saturation tracker -/

lemma mem_eq_of_keys_nodup {α : Type} {l : List (String × α)}
    (h : (l.map Prod.fst).Nodup) {k : String} {a b : α}
    (ha : (k, a) ∈ l) (hb : (k, b) ∈ l) : a = b := by
  induction l with
  | nil => simp at ha
  | cons hd tl ih =>
    obtain ⟨k0, a0⟩ := hd
    simp only [List.map_cons, List.nodup_cons] at h
    rcases List.mem_cons.mp ha with ha0 | ha1
    · rcases List.mem_cons.mp hb with hb0 | hb1
      · rw [Prod.mk.injEq] at ha0 hb0
        rw [ha0.2, hb0.2]
      · exfalso
        rw [Prod.mk.injEq] at ha0
        exact h.1 (by
          rw [← ha0.1]
          exact List.mem_map.mpr ⟨(k, b), hb1, rfl⟩)
    · rcases List.mem_cons.mp hb with hb0 | hb1
      · exfalso
        rw [Prod.mk.injEq] at hb0
        exact h.1 (by
          rw [← hb0.1]
          exact List.mem_map.mpr ⟨(k, a), ha1, rfl⟩)
      · exact ih h.2 ha1 hb1

/-- Evaluation of the `[3,2,1,0,0,0]` prefix: no stabilization yet. -/
lemma c7_six_docs :
    (recordDocs initSaturationTracking "t"
      [("INT_001", 3), ("INT_002", 2), ("INT_003", 1), ("INT_004", 0),
       ("INT_005", 0), ("INT_006", 0)]).code_generation.stabilized_at_document
      = none := by
  norm_num [recordDocs, record_document, lastN, initSaturationTracking, optStrTruthy]

/-- Evaluation of the full `[3,2,1,0,0,0,0]` sequence: stabilized at the
7th document. -/
lemma c7_seven_docs :
    (recordDocs initSaturationTracking "t"
      [("INT_001", 3), ("INT_002", 2), ("INT_003", 1), ("INT_004", 0),
       ("INT_005", 0), ("INT_006", 0),
       ("INT_007", 0)]).code_generation.stabilized_at_document
      = some "INT_007" := by
  norm_num [recordDocs, record_document, lastN, initSaturationTracking, optStrTruthy]

/-- C7 (counterexample).  Stabilization is not strictly one-way as claimed:
the guard is Python truthiness (`not stabilized_at_document`), so a
stabilization recorded at an empty-string document id is treated as unset
and overwritten by a later sub-threshold document. -/
theorem record_document_stabilization_overwritten :
    (recordDocs initSaturationTracking "t"
        [("", 0), ("", 0), ("", 0)]).code_generation.stabilized_at_document = some "" ∧
    (recordDocs initSaturationTracking "t"
        [("", 0), ("", 0), ("", 0),
         ("d4", 0)]).code_generation.stabilized_at_document = some "d4" := by
  constructor <;>
    norm_num [recordDocs, record_document, lastN, initSaturationTracking, optStrTruthy]

/-- C7 (amended).  Once `stabilized_at_document` holds a non-empty document
id it is never overwritten by a later `record_document`; and the new-code
sequence `[3,2,1,0,0,0,0]` leaves it unset after 6 documents and sets it at
the 7th, where the trailing 5-window average first drops below 0.5 with at
least 3 data points. -/
theorem record_document_stabilization_one_way
    (tr : SaturationTracking) (id nm : String) (k : Int) (now s : String)
    (hs : tr.code_generation.stabilized_at_document = some s) (hne : s ≠ "") :
    ((record_document tr id nm k now).1.code_generation.stabilized_at_document = some s ∧
     (record_document tr id nm k now).2.stabilized_at = some s) ∧
    ((recordDocs initSaturationTracking "t"
        [("INT_001", 3), ("INT_002", 2), ("INT_003", 1), ("INT_004", 0),
         ("INT_005", 0), ("INT_006", 0)]).code_generation.stabilized_at_document = none ∧
     (recordDocs initSaturationTracking "t"
        [("INT_001", 3), ("INT_002", 2), ("INT_003", 1), ("INT_004", 0),
         ("INT_005", 0), ("INT_006", 0),
         ("INT_007", 0)]).code_generation.stabilized_at_document = some "INT_007") := by
  refine ⟨⟨?_, ?_⟩, c7_six_docs, c7_seven_docs⟩ <;>
    simp [record_document, hs, optStrTruthy, hne]

/-- Witness for C7's amended theorem: a tracking state stabilized at "X"
stays stabilized at "X". -/
theorem record_document_stabilization_one_way_witness :
    ((record_document c7tr "d9" "d9" 0 "t").1.code_generation.stabilized_at_document =
       some "X" ∧
     (record_document c7tr "d9" "d9" 0 "t").2.stabilized_at = some "X") ∧
    ((recordDocs initSaturationTracking "t"
        [("INT_001", 3), ("INT_002", 2), ("INT_003", 1), ("INT_004", 0),
         ("INT_005", 0), ("INT_006", 0)]).code_generation.stabilized_at_document = none ∧
     (recordDocs initSaturationTracking "t"
        [("INT_001", 3), ("INT_002", 2), ("INT_003", 1), ("INT_004", 0),
         ("INT_005", 0), ("INT_006", 0),
         ("INT_007", 0)]).code_generation.stabilized_at_document = some "INT_007") :=
  record_document_stabilization_one_way c7tr "d9" "d9" 0 "t" "X" rfl (by decide)

/-- The percentage stored for 16 of 20 documents is exactly 80. -/
lemma c9_round : pyRoundTo 1 (80 : Rat) = 80 := by
  have h : (80 : Rat) * 10 ^ 1 = 800 := by norm_num
  rw [pyRoundTo, h, pyRoundInt]
  norm_num [Int.fract, round_eq]

/-- Evaluation of `update_coverage` on the 16-of-20 input. -/
lemma c9_compute :
    update_coverage initSaturationTracking (some 20) [("theme", 16, none)] =
      .ok (c9tr, c9res) := by
  simp only [update_coverage, initSaturationTracking, setEntry, c9tr, c9res, c9entry]
  norm_num [c9_round, setEntry, List.mem_singleton, Prod.mk.injEq]

/-- C9.  A code is classified `universal` iff its stored coverage
percentage strictly exceeds 80 and `rare` iff it is strictly below 10; with
20 coded documents a code in 16 of them gets exactly 80.0% and lands in
neither list. -/
theorem update_coverage_boundaries
    (tr : SaturationTracking) (dc : Option Int) (data : List (String × Int × Option Int))
    (tr2 : SaturationTracking) (r : UpdateCoverageResult)
    (h : update_coverage tr dc data = .ok (tr2, r))
    (hnd : (tr2.code_coverage.coverage_by_code.map Prod.fst).Nodup)
    (c : String) (e : CoverageEntry)
    (hc : (c, e) ∈ tr2.code_coverage.coverage_by_code) :
    ((c ∈ tr2.code_coverage.universal_codes ↔ 80 < e.coverage_percent) ∧
     (c ∈ tr2.code_coverage.rare_codes ↔ e.coverage_percent < 10)) ∧
    (update_coverage initSaturationTracking (some 20) [("theme", 16, none)] =
        .ok (c9tr, c9res) ∧
     c9entry.coverage_percent = 80 ∧
     c9tr.code_coverage.universal_codes = [] ∧
     c9tr.code_coverage.rare_codes = []) := by
  refine ⟨?_, c9_compute, rfl, rfl, rfl⟩
  unfold update_coverage at h
  dsimp only at h
  split at h
  · exact absurd h (by simp)
  · rw [Except.ok.injEq, Prod.mk.injEq] at h
    obtain ⟨h1, h2⟩ := h
    subst h1
    constructor
    · constructor
      · intro hm
        simp only [List.mem_map, List.mem_filter, decide_eq_true_eq] at hm
        obtain ⟨p, ⟨hp, hgt⟩, hpc⟩ := hm
        obtain ⟨pk, pe⟩ := p
        simp only at hpc
        subst hpc
        rw [mem_eq_of_keys_nodup hnd hc hp]
        exact hgt
      · intro hgt
        simp only [List.mem_map, List.mem_filter, decide_eq_true_eq]
        exact ⟨(c, e), ⟨hc, hgt⟩, rfl⟩
    · constructor
      · intro hm
        simp only [List.mem_map, List.mem_filter, decide_eq_true_eq] at hm
        obtain ⟨p, ⟨hp, hlt⟩, hpc⟩ := hm
        obtain ⟨pk, pe⟩ := p
        simp only at hpc
        subst hpc
        rw [mem_eq_of_keys_nodup hnd hc hp]
        exact hlt
      · intro hlt
        simp only [List.mem_map, List.mem_filter, decide_eq_true_eq]
        exact ⟨(c, e), ⟨hc, hlt⟩, rfl⟩

/-- Witness for C9 on the concrete 16-of-20 input. -/
theorem update_coverage_boundaries_witness :
    (("theme" ∈ c9tr.code_coverage.universal_codes ↔ 80 < c9entry.coverage_percent) ∧
     ("theme" ∈ c9tr.code_coverage.rare_codes ↔ c9entry.coverage_percent < 10)) ∧
    (update_coverage initSaturationTracking (some 20) [("theme", 16, none)] =
        .ok (c9tr, c9res) ∧
     c9entry.coverage_percent = 80 ∧
     c9tr.code_coverage.universal_codes = [] ∧
     c9tr.code_coverage.rare_codes = []) :=
  update_coverage_boundaries initSaturationTracking (some 20) [("theme", 16, none)]
    c9tr c9res c9_compute (by simp [c9tr, c9entry]) "theme" c9entry
    (by simp [c9tr, c9entry])

/-! ## Claim theorems: state manager -/

/-- C1 (code-bug evidence).  A stored document carrying one extra top-level
key outside the dataclass fields does not survive `load → save`: already
`ProjectState.from_dict` (`cls(**data)`) raises
`TypeError: unexpected keyword argument`, which `StateManager.load` does not
catch (it catches only `JSONDecodeError`/`IOError`), so the round trip
fails instead of preserving the key.  The repo's own saturation tracker
writes such extra top-level keys (e.g. `saturation_tracking`). -/
theorem unknown_key_breaks_load :
    from_dict (to_dict defaultProjectState ++ [("x_collab", vInt 42)]) =
      .error (.typeError "x_collab") ∧
    load_save_roundtrip (to_dict defaultProjectState ++ [("x_collab", vInt 42)]) "T" =
      .error (.typeError "x_collab") := by
  constructor <;> rfl

/-- C8 (counterexample).  `save(load())` + `load()` does not return a
document equal to the input up to `version`/`last_updated` for every
loadable document: a partial document (here the empty object, which
`from_dict` accepts) comes back with all sixteen defaulted fields added —
e.g. the output binds `current_stage` while the input does not. -/
theorem roundtrip_adds_default_fields :
    load_save_roundtrip [] "T" = .ok (to_dict c8out) ∧
    ([] : Dict).lookup "current_stage" = none ∧
    (to_dict c8out).lookup "current_stage" = some (vStr "stage1") := by
  refine ⟨rfl, rfl, rfl⟩

/-- C8 (amended).  For every complete document — the serialization of a
`ProjectState` whose `version` is an integer — the round trip returns the
same document with `version` incremented by exactly 1 and `last_updated`
restamped, all other fields unchanged. -/
theorem roundtrip_increments_version (s : ProjectState) (n : Int) (t : String)
    (hv : s.version = vInt n) :
    load_save_roundtrip (to_dict s) t =
      .ok (to_dict { s with version := vInt (n + 1), last_updated := vStr t }) := by
  have h1 : from_dict (to_dict s) = .ok s := rfl
  unfold load_save_roundtrip save
  rw [h1]
  dsimp only
  rw [hv]
  rfl

/-- Witness for C8's amended round trip on the default document. -/
theorem roundtrip_increments_version_witness :
    load_save_roundtrip (to_dict defaultProjectState) "T" = .ok (to_dict c8out) :=
  roundtrip_increments_version defaultProjectState 1 "T" rfl

/-- C6 (counterexample).  `transition_stage` does not reject
`stage1 → stage2` whenever fewer than 10 documents are manually coded: the
count is only checked when `stage1_complete` is falsy, so a state with
`stage1_complete = true` and 0 manually coded documents transitions
successfully. -/
theorem transition_stage_precondition_bypassed :
    c6state.documents_manually_coded = vInt 0 ∧
    transition_stage c6state "stage2" "T" =
      .ok { c6state with
            stage1_complete := vBool true, current_stage := vStr "stage2",
            version := vInt 2, last_updated := vStr "T" } := by
  refine ⟨rfl, rfl⟩

/-- C6 (amended).  `transition_stage` rejects with the explicit
invalid-transition `ValueError` any target that is not the immediate
successor of the current stage; for `stage1 → stage2` with `stage1_complete`
falsy it rejects with the distinct precondition `ValueError` when fewer
than 10 documents are manually coded; otherwise it succeeds, setting the
new stage (and `stage1_complete`), bumping `version` and restamping
`last_updated`. -/
theorem transition_stage_amended (s : ProjectState) (new_stage t : String) :
    (new_stage ∉ transitionsFrom s.current_stage →
      transition_stage s new_stage t = .error (.valueError "Invalid transition")) ∧
    (∀ n : Int, s.current_stage = vStr "stage1" → pyTruthy s.stage1_complete = false →
      s.documents_manually_coded = vInt n → n < 10 →
      transition_stage s "stage2" t =
        .error (.valueError "Cannot transition to stage2")) ∧
    (∀ n m : Int, s.current_stage = vStr "stage1" → pyTruthy s.stage1_complete = false →
      s.documents_manually_coded = vInt n → 10 ≤ n → s.version = vInt m →
      transition_stage s "stage2" t =
        .ok { s with
              stage1_complete := vBool true, current_stage := vStr "stage2",
              version := vInt (m + 1), last_updated := vStr t }) ∧
    (∀ m : Int, s.current_stage = vStr "stage2" → s.version = vInt m →
      transition_stage s "stage3" t =
        .ok { s with
              current_stage := vStr "stage3", version := vInt (m + 1),
              last_updated := vStr t }) := by
  refine ⟨?_, ?_, ?_, ?_⟩
  · intro h
    have hc : (transitionsFrom s.current_stage).contains new_stage = false := by
      simpa using h
    simp [transition_stage, hc]
    intro hmem
    exact absurd hmem h
  · intro n hcs hsc hdm hlt
    have hlt' : decide (n < 10) = true := by simpa using hlt
    simp [transition_stage, transitionsFrom, hcs, isStr, hsc, hdm, pyLt10, save, hlt']
  · intro n m hcs hsc hdm hge hv
    have hlt' : decide (n < 10) = false := by simpa using hge
    simp [transition_stage, transitionsFrom, hcs, isStr, hsc, hdm, pyLt10, save,
      pyIntAdd1, hlt', hv]
  · intro m hcs hv
    simp [transition_stage, transitionsFrom, hcs, isStr, save, pyIntAdd1, hv]

/-- Witness for C6's amended theorem: the three outcomes at concrete
states. -/
theorem transition_stage_amended_witness :
    transition_stage defaultProjectState "stage3" "T" =
      .error (.valueError "Invalid transition") ∧
    transition_stage defaultProjectState "stage2" "T" =
      .error (.valueError "Cannot transition to stage2") :=
  ⟨(transition_stage_amended defaultProjectState "stage3" "T").1 (by decide),
   (transition_stage_amended defaultProjectState "stage2" "T").2.1 0 rfl rfl rfl
     (by decide)⟩
